import Mathlib

/-!
Shallow embedding of the Attendly backend's face-embedding pipeline.

Sources modelled (file and function names follow the repository):
- Backend/services/arcface_service.py: compute_similarity,
  calculate_average_embedding, the defensive re-normalization step shared by
  extract_arcface_embedding / extract_multiple_arcface_embeddings /
  detect_faces_batch, and get_model_info.
- Backend/services/vector_db.py: ChromaVectorDB.search_similar,
  FAISSVectorDB.search_similar, VectorDBService.get_stats.
- Backend/services/vector_db_firestore.py: FirestoreVectorDB._cosine_similarity
  and FirestoreVectorDB.search_similar.
- Backend/routes/face_data.py: recognize_students_from_photo (the matching
  logic after request validation and face detection).

Numeric model: Python floats are idealized as real numbers.  Vectors
(numpy 1-d arrays) are lists of reals; np.linalg.norm is the Euclidean norm
(square root of the sum of squares); np.dot on 1-d arrays of different
lengths raises a shape error, modelled with Except.  Python exceptions are
modelled with Except where they can escape, and by the handler's fallback
value where the code catches them.  Opaque external libraries (the ArcFace
model, ChromaDB and FAISS query engines, Firestore) are modelled by taking
their outputs as inputs of the functions that consume them.
-/

namespace Attendly

noncomputable section

/-! ### numpy primitives -/

/-- Sum of squares of a vector; np.linalg.norm(v) is its square root. -/
def sumSq (v : List ℝ) : ℝ := (v.map (fun x => x * x)).sum

/-- np.linalg.norm on a 1-d array: Euclidean norm. -/
def npNorm (v : List ℝ) : ℝ := Real.sqrt (sumSq v)

/-- np.dot on 1-d arrays: the inner product when the shapes agree, a raised
shape error otherwise. -/
def npDot (a b : List ℝ) : Except String ℝ :=
  if a.length = b.length then .ok ((List.zipWith (fun x y => x * y) a b).sum)
  else .error "shapes not aligned"

/-- np.mean(embeddings, axis=0): componentwise mean of a list of vectors of a
common dimension. -/
def npMean (l : List (List ℝ)) : List ℝ :=
  let n : ℝ := l.length
  let d := (l.headD []).length
  (List.range d).map (fun i => ((l.map (fun v => v.getD i 0)).sum) / n)

/-! ### arcface_service.py -/

/-- The defensive re-normalization applied to every embedding coming out of
the ArcFace model (arcface_service.py lines 133-137, repeated in
extract_multiple_arcface_embeddings and detect_faces_batch): divide by the
norm when the norm is positive, otherwise return the vector unchanged. -/
def normalize_embedding (v : List ℝ) : List ℝ :=
  let norm := npNorm v
  if 0 < norm then v.map (fun x => x / norm) else v

/-- arcface_service.calculate_average_embedding: raise ValueError on an empty
list, return the single element unchanged for a singleton, otherwise take the
componentwise mean and re-normalize it when its norm is positive. -/
def calculate_average_embedding (embeddings : List (List ℝ)) :
    Except String (List ℝ) :=
  if embeddings.length = 0 then .error "No embeddings provided"
  else if embeddings.length = 1 then .ok (embeddings.headD [])
  else
    let avg := npMean embeddings
    let norm := npNorm avg
    .ok (if 0 < norm then avg.map (fun x => x / norm) else avg)

/-- arcface_service.compute_similarity: compute both norms, return 0.0 when
either is zero, otherwise divide the dot product by the product of the norms.
The whole body is wrapped in try/except blocks whose handlers return 0.0, so
a shape error raised by np.dot on mismatched dimensions is swallowed and the
call returns 0.0. -/
def compute_similarity (embedding1 embedding2 : List ℝ) : ℝ :=
  let na := npNorm embedding1
  let nb := npNorm embedding2
  if na = 0 ∨ nb = 0 then 0
  else
    match npDot embedding1 embedding2 with
    | .ok d => d / (na * nb)
    | .error _ => 0

/-! ### vector_db_firestore.py: _cosine_similarity -/

/-- FirestoreVectorDB._cosine_similarity: compute both norms, return 0.0 when
either is zero, otherwise divide the dot product by the product of the norms.
Unlike arcface_service.compute_similarity there is no local exception handler,
so a shape error raised by np.dot propagates to the caller. -/
def fs_cosine (a b : List ℝ) : Except String ℝ :=
  let norm_a := npNorm a
  let norm_b := npNorm b
  if norm_a = 0 ∨ norm_b = 0 then .ok 0
  else
    match npDot a b with
    | .ok d => .ok (d / (norm_a * norm_b))
    | .error e => .error e

/-! ### vector_db.py and vector_db_firestore.py: search_similar -/

/-- Python sorted(matches, key=similarity, reverse=True): a stable sort into
descending order of a real-valued key. -/
def sortBySimDesc {α : Type} (f : α → ℝ) (l : List α) : List α :=
  l.mergeSort (fun x y => decide (f y ≤ f x))

/-- A match record returned by ChromaVectorDB.search_similar. -/
structure ChromaMatch where
  user_id : ℕ
  similarity : ℝ
  distance : ℝ

/-- ChromaVectorDB.search_similar: the backing collection.query returns at
most top_k rows, each carrying a user id (metadata) and a distance; the
adapter converts each distance to similarity = 1 - distance, keeps the rows
whose similarity is at or above the threshold, and returns them sorted by
similarity in descending order. (The max_distance = 1 - threshold computed
in the source is never used.) -/
def chroma_search_similar (rows : List (ℕ × ℝ)) (threshold : ℝ) :
    List ChromaMatch :=
  sortBySimDesc ChromaMatch.similarity
    ((rows.map (fun r => ChromaMatch.mk r.1 (1 - r.2) r.2)).filter
      (fun m => decide (threshold ≤ m.similarity)))

/-- A match record returned by FAISSVectorDB.search_similar. -/
structure FaissMatch where
  user_id : ℕ
  similarity : ℝ
  index_id : Int

/-- FAISSVectorDB.search_similar: index.search returns at most top_k rows of
(similarity, index id); the adapter keeps the rows whose similarity is at or
above the threshold and whose index is not -1 and appears in the
user_id_to_index mapping (first matching user id wins), and returns them
sorted by similarity in descending order. -/
def faiss_search_similar (rows : List (ℝ × Int))
    (user_id_to_index : List (ℕ × Int)) (threshold : ℝ) : List FaissMatch :=
  sortBySimDesc FaissMatch.similarity
    (rows.filterMap (fun p =>
      if threshold ≤ p.1 ∧ p.2 ≠ -1 then
        match user_id_to_index.find? (fun q => decide (q.2 = p.2)) with
        | some q => some (FaissMatch.mk q.1 p.1 p.2)
        | none => none
      else none))

/-- A Firestore document holding an optional embedding and the user id kept
in its metadata. -/
structure FsDoc where
  embedding : Option (List ℝ)
  user_id : ℕ

/-- A match record returned by FirestoreVectorDB.search_similar. -/
structure FsMatch where
  user_id : ℕ
  similarity : ℝ
  distance : ℝ

/-- The match-collection loop of FirestoreVectorDB.search_similar: documents
without an embedding are skipped; for the rest the cosine similarity against
the query is computed (a raised shape error propagates) and the rows at or
above the threshold are collected in document order. -/
def fs_collect (q : List ℝ) (threshold : ℝ) :
    List FsDoc → Except String (List FsMatch)
  | [] => .ok []
  | doc :: rest =>
    match doc.embedding with
    | none => fs_collect q threshold rest
    | some emb =>
      match fs_cosine q emb with
      | .error e => .error e
      | .ok sim =>
        match fs_collect q threshold rest with
        | .error e => .error e
        | .ok ms =>
          .ok ((if threshold ≤ sim then [FsMatch.mk doc.user_id sim (1 - sim)]
            else []) ++ ms)

/-- FirestoreVectorDB.search_similar: collect the thresholded matches over
all documents, sort them by similarity in descending order and keep the
first top_k; any exception is re-raised as a ValueError. -/
def firestore_search_similar (docs : List FsDoc) (q : List ℝ) (top_k : ℕ)
    (threshold : ℝ) : Except String (List FsMatch) :=
  match fs_collect q threshold docs with
  | .error e => .error ("Failed to search in Firestore: " ++ e)
  | .ok ms => .ok ((sortBySimDesc FsMatch.similarity ms).take top_k)

/-! ### routes/face_data.py: recognize_students_from_photo -/

/-- A row of enrolled_students_data: an enrolled student of the class with
active facial data (id, names, email; the vector_db_id is not used by the
matching loop). -/
structure StudentRec where
  id : ℕ
  first_name : String
  last_name : String
  email : String

/-- An element of face_data_list: a detected face with its 1-based sequence
number, embedding and bounding box. -/
structure FaceDet where
  face_number : ℕ
  embedding : List ℝ
  bbox : List ℤ

/-- A row returned by vector_db.find_similar_faces: matched user id and
similarity. -/
structure MatchRec where
  user_id : ℕ
  similarity : ℝ

/-- A best_match entry of the recognized_students response list (the rounded
similarity_percentage field, a duplicate of confidence, is omitted). -/
structure BestMatch where
  student_id : ℕ
  name : String
  email : String
  confidence : ℝ
  face_number : ℕ
  bbox : List ℤ

/-- script.py's cosine threshold, face_data.py line 1770. -/
def script_threshold : ℝ := 0.35

/-- The fixed threshold actually passed to the vector DB search,
face_data.py line 1771: (0.35 + 1.0) / 2.0. -/
def vector_db_threshold : ℝ := (script_threshold + 1.0) / 2.0

/-- One iteration of the inner candidate loop (face_data.py lines 1795-1825):
a candidate replaces the current best when its user is enrolled in the class
and its similarity exceeds the current best similarity; if that user was
already claimed by an earlier face nothing changes; otherwise the best
similarity is updated and, when the student row is found, the best match is
rebuilt from it. -/
def consider_match (enrolled : List StudentRec) (claimed : List ℕ)
    (face : FaceDet) (st : ℝ × Option BestMatch) (m : MatchRec) :
    ℝ × Option BestMatch :=
  if m.user_id ∈ enrolled.map StudentRec.id ∧ st.1 < m.similarity then
    if m.user_id ∉ claimed then
      match enrolled.find? (fun s => decide (s.id = m.user_id)) with
      | some s => (m.similarity,
          some (BestMatch.mk s.id (s.first_name ++ " " ++ s.last_name) s.email
            m.similarity face.face_number face.bbox))
      | none => (m.similarity, st.2)
    else st
  else st

/-- The inner candidate loop over the search results for one face, starting
from best_similarity = 0 and best_match = None. -/
def best_match_for_face (enrolled : List StudentRec) (claimed : List ℕ)
    (face : FaceDet) (ms : List MatchRec) : ℝ × Option BestMatch :=
  ms.foldl (consider_match enrolled claimed face) (0, none)

/-- The outer loop over detected faces (face_data.py lines 1774-1853): for
each face, query the vector DB with the fixed internal threshold and
top_k = 5, pick the best unclaimed enrolled candidate, and append it to
recognized_students (claiming its id) unless the id is already claimed. -/
def recognition_loop (enrolled : List StudentRec)
    (search : ℝ → ℕ → List ℝ → List MatchRec) :
    List FaceDet → List BestMatch → List ℕ → List BestMatch × List ℕ
  | [], recognized, claimed => (recognized, claimed)
  | face :: rest, recognized, claimed =>
    match (best_match_for_face enrolled claimed face
        (search vector_db_threshold 5 face.embedding)).2 with
    | some b =>
      if b.student_id ∈ claimed then
        recognition_loop enrolled search rest recognized claimed
      else
        recognition_loop enrolled search rest (recognized ++ [b])
          (claimed ++ [b.student_id])
    | none => recognition_loop enrolled search rest recognized claimed

/-- The JSON body (plus HTTP status) produced by recognize_students_from_photo;
fields absent from a given response are None. -/
structure RecogResponse where
  status : ℕ
  success : Bool
  error : Option String := none
  message : Option String := none
  total_faces_detected : Option ℕ := none
  total_recognized : Option ℕ := none
  recognized_students : Option (List BestMatch) := none
  unrecognized_faces : Option ℕ := none
  recognition_threshold : Option ℝ := none

/-- face_data.recognize_students_from_photo after authentication, request
parsing and image decoding: validate the caller's threshold (rejecting values
outside [0.4, 0.9]), return early when no face was detected, return a 400
error when no enrolled student of the class has facial data, and otherwise
run the greedy matching loop. The detected faces, the roster and the vector
DB search are inputs; the caller's threshold is only echoed, never used for
matching. -/
def recognize_students_from_photo (recognition_threshold : ℝ)
    (faces : List FaceDet) (enrolled : List StudentRec)
    (search : ℝ → ℕ → List ℝ → List MatchRec) : RecogResponse :=
  if ¬ (0.4 ≤ recognition_threshold ∧ recognition_threshold ≤ 0.9) then
    { status := 400, success := false,
      error := some "Recognition threshold must be between 0.4 and 0.9" }
  else if faces.length = 0 then
    { status := 200, success := true,
      message := some "No faces detected in the image",
      total_faces_detected := some 0, total_recognized := some 0,
      recognized_students := some [], unrecognized_faces := some 0 }
  else if enrolled.length = 0 then
    { status := 400, success := false,
      error := some "No students in this class have registered facial data",
      total_faces_detected := some faces.length }
  else
    { status := 200, success := true,
      total_faces_detected := some faces.length,
      total_recognized :=
        some (recognition_loop enrolled search faces [] []).1.length,
      recognized_students := some (recognition_loop enrolled search faces [] []).1,
      unrecognized_faces :=
        some (faces.length - (recognition_loop enrolled search faces [] []).1.length),
      recognition_threshold := some recognition_threshold }

/-! ### vector_db.py VectorDBService.get_stats and arcface_service.get_model_info -/

/-- The dictionary returned by VectorDBService.get_stats. -/
structure DBStats where
  db_type : String
  total_encodings : ℕ
  encoding_dimension : ℕ

/-- VectorDBService.get_stats: the count comes from the selected backing
store (collection count for chroma, index ntotal for faiss, 0 otherwise) and
the reported encoding_dimension is the hardcoded literal 128. -/
def VectorDBService_get_stats (db_type : String) (chroma_count faiss_count : ℕ) :
    DBStats :=
  { db_type := db_type,
    total_encodings :=
      if db_type = "chroma" then chroma_count
      else if db_type = "faiss" then faiss_count
      else 0,
    encoding_dimension := 128 }

/-- The dictionary returned by arcface_service.get_model_info. -/
structure ArcModelInfo where
  status : String
  model_name : Option String
  embedding_dimension : ℕ

/-- arcface_service.get_model_info: reports the 512-dimensional buffalo_l
model when the ArcFace model is loaded, and dimension 0 otherwise. -/
def get_model_info (model_loaded : Bool) : ArcModelInfo :=
  if model_loaded then
    { status := "loaded", model_name := some "buffalo_l",
      embedding_dimension := 512 }
  else
    { status := "not_loaded", model_name := none, embedding_dimension := 0 }

/-- The contract of the spec's query operation: descending similarity order,
every entry at or above the threshold, at most top_k entries. -/
def SearchResultOk {α : Type} (f : α → ℝ) (threshold : ℝ) (top_k : ℕ)
    (l : List α) : Prop :=
  l.Pairwise (fun x y => f y ≤ f x) ∧ (∀ m ∈ l, threshold ≤ f m)
    ∧ l.length ≤ top_k

/-! ### basic numeric lemmas -/

theorem sumSq_nonneg (v : List ℝ) : 0 ≤ sumSq v := by
  induction v with
  | nil => simp [sumSq]
  | cons x xs ih =>
    simp only [sumSq, List.map_cons, List.sum_cons]
    exact add_nonneg (mul_self_nonneg x) ih

theorem npNorm_eq_zero {v : List ℝ} : npNorm v = 0 ↔ sumSq v = 0 := by
  unfold npNorm
  constructor
  · intro h
    have := Real.sqrt_eq_zero (sumSq_nonneg v) |>.mp h
    exact this
  · intro h
    rw [h, Real.sqrt_zero]

theorem sumSq_replicate_one (n : ℕ) : sumSq (List.replicate n (1 : ℝ)) = n := by
  simp [sumSq, List.map_replicate]

/-- C1 counterexample: comparing a 128-dimensional and a 512-dimensional
all-ones embedding returns the numeric similarity 0.0; no exception escapes
(the function is total), contradicting the claim that a DimensionMismatch
error is raised and no numeric value is ever returned. -/
theorem compute_similarity_mismatch_128_512_returns_zero :
    compute_similarity (List.replicate 128 (1 : ℝ)) (List.replicate 512 (1 : ℝ)) = 0 := by
  unfold compute_similarity
  have h128 : npNorm (List.replicate 128 (1 : ℝ)) ≠ 0 := by
    rw [Ne, npNorm_eq_zero, sumSq_replicate_one]
    norm_num
  have h512 : npNorm (List.replicate 512 (1 : ℝ)) ≠ 0 := by
    rw [Ne, npNorm_eq_zero, sumSq_replicate_one]
    norm_num
  have hdot : npDot (List.replicate 128 (1 : ℝ)) (List.replicate 512 (1 : ℝ)) =
      .error "shapes not aligned" := by
    unfold npDot
    rw [if_neg (by simp only [List.length_replicate]; omega)]
  rw [hdot, if_neg (by push_neg; exact ⟨h128, h512⟩)]

/-- C1 (amended): for embeddings of different lengths, compute_similarity
returns the sentinel value 0.0 (the internal shape error is caught); it never
raises and never returns a genuine cosine value. -/
theorem compute_similarity_dim_mismatch_zero (a b : List ℝ)
    (h : a.length ≠ b.length) : compute_similarity a b = 0 := by
  have hdot : npDot a b = .error "shapes not aligned" := by
    unfold npDot
    rw [if_neg h]
  unfold compute_similarity
  rw [hdot]
  split <;> simp_all

/-- C1 witness: the amended statement evaluated at a 1-dimensional and a
2-dimensional vector. -/
theorem compute_similarity_dim_mismatch_zero_witness :
    compute_similarity [(1 : ℝ)] [(1 : ℝ), 2] = 0 :=
  compute_similarity_dim_mismatch_zero [(1 : ℝ)] [(1 : ℝ), 2] (by simp)

/-- C10: both cosine-similarity implementations are total on same-dimension
pairs: a zero-norm input short-circuits to 0.0 before any division, and
otherwise the result is the dot product divided by the product of the norms,
whose denominator is provably nonzero. -/
theorem cosine_similarity_total (a b : List ℝ) (h : a.length = b.length) :
    ((npNorm a = 0 ∨ npNorm b = 0) →
      compute_similarity a b = 0 ∧ fs_cosine a b = .ok 0)
    ∧ (npNorm a ≠ 0 → npNorm b ≠ 0 →
      npNorm a * npNorm b ≠ 0
      ∧ compute_similarity a b =
          (List.zipWith (fun x y => x * y) a b).sum / (npNorm a * npNorm b)
      ∧ fs_cosine a b =
          .ok ((List.zipWith (fun x y => x * y) a b).sum / (npNorm a * npNorm b))) := by
  have hdot : npDot a b = .ok ((List.zipWith (fun x y => x * y) a b).sum) := by
    unfold npDot
    rw [if_pos h]
  constructor
  · intro hz
    constructor
    · unfold compute_similarity
      rw [if_pos hz]
    · unfold fs_cosine
      rw [if_pos hz]
  · intro ha hb
    refine ⟨mul_ne_zero ha hb, ?_, ?_⟩
    · unfold compute_similarity
      rw [if_neg (by push_neg; exact ⟨ha, hb⟩), hdot]
    · unfold fs_cosine
      rw [if_neg (by push_neg; exact ⟨ha, hb⟩), hdot]

/-- C10 witness: the totality statement evaluated at the unit vectors
[1, 0] and [0, 1]. -/
theorem cosine_similarity_total_witness :
    ((npNorm [(1 : ℝ), 0] = 0 ∨ npNorm [(0 : ℝ), 1] = 0) →
      compute_similarity [(1 : ℝ), 0] [(0 : ℝ), 1] = 0
      ∧ fs_cosine [(1 : ℝ), 0] [(0 : ℝ), 1] = .ok 0)
    ∧ (npNorm [(1 : ℝ), 0] ≠ 0 → npNorm [(0 : ℝ), 1] ≠ 0 →
      npNorm [(1 : ℝ), 0] * npNorm [(0 : ℝ), 1] ≠ 0
      ∧ compute_similarity [(1 : ℝ), 0] [(0 : ℝ), 1] =
          (List.zipWith (fun x y => x * y) [(1 : ℝ), 0] [(0 : ℝ), 1]).sum /
            (npNorm [(1 : ℝ), 0] * npNorm [(0 : ℝ), 1])
      ∧ fs_cosine [(1 : ℝ), 0] [(0 : ℝ), 1] =
          .ok ((List.zipWith (fun x y => x * y) [(1 : ℝ), 0] [(0 : ℝ), 1]).sum /
            (npNorm [(1 : ℝ), 0] * npNorm [(0 : ℝ), 1]))) :=
  cosine_similarity_total [(1 : ℝ), 0] [(0 : ℝ), 1] rfl

/-! ### unit-norm lemmas for the normalization step -/

theorem sumSq_map_div (v : List ℝ) (c : ℝ) :
    sumSq (v.map (fun x => x / c)) = sumSq v / c ^ 2 := by
  induction v with
  | nil => simp [sumSq]
  | cons x xs ih =>
    unfold sumSq at *
    simp only [List.map_cons, List.sum_cons]
    rw [ih]
    ring

theorem npNorm_normalize {v : List ℝ} (hv : sumSq v ≠ 0) :
    npNorm (normalize_embedding v) = 1 := by
  have hpos : 0 < sumSq v := lt_of_le_of_ne (sumSq_nonneg v) (Ne.symm hv)
  have hc : 0 < npNorm v := Real.sqrt_pos.mpr hpos
  unfold normalize_embedding
  rw [if_pos hc]
  unfold npNorm
  rw [sumSq_map_div, Real.sq_sqrt (le_of_lt hpos), div_self hv, Real.sqrt_one]

/-- C6 counterexample: aggregating the two unit-norm embeddings [1, 0] and
[-1, 0] yields the zero vector: the mean is zero, the norm guard skips
re-normalization, and the returned embedding has norm 0, which is not within
1e-4 of 1. -/
theorem aggregate_opposite_pair_zero_norm :
    calculate_average_embedding [[(1 : ℝ), 0], [(-1 : ℝ), 0]] = .ok [0, 0]
    ∧ sumSq [(1 : ℝ), 0] = 1 ∧ sumSq [(-1 : ℝ), 0] = 1
    ∧ ¬ |npNorm ([0, 0] : List ℝ) - 1| < 1 / 10000 := by
  have hmean : npMean [[(1 : ℝ), 0], [(-1 : ℝ), 0]] = [0, 0] := by
    unfold npMean
    norm_num [List.range_succ]
  have hnorm : npNorm ([0, 0] : List ℝ) = 0 := by
    unfold npNorm sumSq
    norm_num [Real.sqrt_zero]
  refine ⟨?_, by norm_num [sumSq], by norm_num [sumSq], ?_⟩
  · unfold calculate_average_embedding
    norm_num [hmean, hnorm]
  · rw [hnorm]
    norm_num

/-- C6 (amended): the defensive normalization step produces an exactly
unit-norm vector whenever the vector it normalizes is nonzero; in particular
every detector-path embedding with nonzero raw norm, and every aggregate of
two or more embeddings whose componentwise mean is nonzero, has norm within
1e-4 of 1. When the vector being normalized is zero the code returns it
unchanged and the invariant fails (see the counterexample). -/
theorem embeddings_unit_norm_when_norm_pos (v : List ℝ) (l : List (List ℝ))
    (hv : sumSq v ≠ 0) (h2 : 2 ≤ l.length) (hm : sumSq (npMean l) ≠ 0) :
    |npNorm (normalize_embedding v) - 1| < 1 / 10000
    ∧ calculate_average_embedding l = .ok (normalize_embedding (npMean l))
    ∧ |npNorm (normalize_embedding (npMean l)) - 1| < 1 / 10000 := by
  refine ⟨?_, ?_, ?_⟩
  · rw [npNorm_normalize hv]
    norm_num
  · have hpos : 0 < npNorm (npMean l) :=
      Real.sqrt_pos.mpr (lt_of_le_of_ne (sumSq_nonneg _) (Ne.symm hm))
    unfold calculate_average_embedding
    rw [if_neg (by omega), if_neg (by omega)]
    rfl
  · rw [npNorm_normalize hm]
    norm_num

/-- C6 witness: the amended statement evaluated at the nonzero vector [2, 0]
and the two-element aggregation input [[1, 0], [0, 1]], whose mean
[1/2, 1/2] is nonzero. -/
theorem embeddings_unit_norm_when_norm_pos_witness :
    |npNorm (normalize_embedding [(2 : ℝ), 0]) - 1| < 1 / 10000
    ∧ calculate_average_embedding [[(1 : ℝ), 0], [(0 : ℝ), 1]] =
        .ok (normalize_embedding (npMean [[(1 : ℝ), 0], [(0 : ℝ), 1]]))
    ∧ |npNorm (normalize_embedding (npMean [[(1 : ℝ), 0], [(0 : ℝ), 1]])) - 1| <
        1 / 10000 :=
  embeddings_unit_norm_when_norm_pos [(2 : ℝ), 0] [[(1 : ℝ), 0], [(0 : ℝ), 1]]
    (by norm_num [sumSq]) (by simp)
    (by unfold npMean sumSq; norm_num [List.range_succ])

/-! ### permutation invariance of the aggregator -/

theorem npMean_perm {d : ℕ} {l l' : List (List ℝ)} (hp : l.Perm l')
    (hl : l ≠ []) (hdim : ∀ v ∈ l, v.length = d) : npMean l = npMean l' := by
  have hl' : l' ≠ [] := by
    intro h
    exact hl (List.Perm.eq_nil (h ▸ hp))
  have hd : (l.headD []).length = d := by
    cases l with
    | nil => exact absurd rfl hl
    | cons a t => exact hdim a (List.mem_cons_self a t)
  have hd' : (l'.headD []).length = d := by
    cases l' with
    | nil => exact absurd rfl hl'
    | cons a t => exact hdim a (hp.mem_iff.mpr (List.mem_cons_self a t))
  have hsum : ∀ i, (l.map (fun v => v.getD i 0)).sum =
      (l'.map (fun v => v.getD i 0)).sum := fun i => (hp.map _).sum_eq
  unfold npMean
  rw [hd, hd', hp.length_eq]
  exact List.map_congr_left (fun i _ => by rw [hsum i])

/-- C5: aggregation is invariant under permutation of the input list of
same-dimension embeddings. -/
theorem aggregate_perm_invariant {d : ℕ} {l l' : List (List ℝ)}
    (hperm : l.Perm l') (hdim : ∀ v ∈ l, v.length = d) :
    calculate_average_embedding l = calculate_average_embedding l' := by
  have hlen : l.length = l'.length := hperm.length_eq
  by_cases h0 : l.length = 0
  · unfold calculate_average_embedding
    rw [if_pos h0, if_pos (hlen ▸ h0)]
  · by_cases h1 : l.length = 1
    · obtain ⟨a, rfl⟩ := List.length_eq_one.mp h1
      obtain rfl : [a] = l' := List.singleton_perm.mp hperm
      rfl
    · have hl : l ≠ [] := fun h => h0 (by rw [h]; rfl)
      have hmean := npMean_perm hperm hl hdim
      have h0' : ¬ l'.length = 0 := by omega
      have h1' : ¬ l'.length = 1 := by omega
      unfold calculate_average_embedding
      rw [if_neg h0, if_neg h0', if_neg h1, if_neg h1', hmean]

/-- C5 witness: the permutation-invariance statement evaluated at the swapped
two-element lists [[1, 0], [0, 1]] and [[0, 1], [1, 0]]. -/
theorem aggregate_perm_invariant_witness :
    calculate_average_embedding [[(1 : ℝ), 0], [(0 : ℝ), 1]] =
      calculate_average_embedding [[(0 : ℝ), 1], [(1 : ℝ), 0]] :=
  @aggregate_perm_invariant 2 _ _ (List.Perm.swap [(0 : ℝ), 1] [(1 : ℝ), 0] [])
    (by
      rintro v hv
      rcases List.mem_cons.mp hv with rfl | hv
      · rfl
      · rcases List.mem_cons.mp hv with rfl | hv
        · rfl
        · cases hv)

/-- C4: aggregating a one-element list returns the embedding itself,
unchanged (the code returns embeddings[0] before any averaging or
re-normalization). -/
theorem aggregate_singleton_identity (e : List ℝ) :
    calculate_average_embedding [e] = .ok e := by
  simp [calculate_average_embedding]

/-! ### C2: the three search_similar implementations -/

theorem sortBySimDesc_pairwise {α : Type} (f : α → ℝ) (l : List α) :
    (sortBySimDesc f l).Pairwise (fun x y => f y ≤ f x) := by
  have h := @List.sorted_mergeSort α (fun x y => decide (f y ≤ f x))
    (fun a b c hab hbc => by
      simp only [decide_eq_true_eq] at *
      exact le_trans hbc hab)
    (fun a b => by
      simp only [Bool.or_eq_true, decide_eq_true_eq]
      exact le_total (f b) (f a)) l
  exact h.imp (fun hb => of_decide_eq_true hb)

theorem mem_sortBySimDesc {α : Type} {f : α → ℝ} {l : List α} {a : α} :
    a ∈ sortBySimDesc f l ↔ a ∈ l := List.mem_mergeSort

theorem length_sortBySimDesc {α : Type} (f : α → ℝ) (l : List α) :
    (sortBySimDesc f l).length = l.length := List.length_mergeSort l

theorem fs_cosine_ok_of_dim {q e : List ℝ} (h : e.length = q.length) :
    ∃ s, fs_cosine q e = .ok s := by
  by_cases hz : npNorm q = 0 ∨ npNorm e = 0
  · exact ⟨0, by unfold fs_cosine; rw [if_pos hz]⟩
  · have hdot : npDot q e = .ok ((List.zipWith (fun x y => x * y) q e).sum) := by
      unfold npDot
      rw [if_pos h.symm]
    refine ⟨(List.zipWith (fun x y => x * y) q e).sum / (npNorm q * npNorm e), ?_⟩
    unfold fs_cosine
    rw [if_neg hz, hdot]

theorem fs_collect_ok {q : List ℝ} {t : ℝ} {docs : List FsDoc}
    (hdim : ∀ d ∈ docs, ∀ e, d.embedding = some e → e.length = q.length) :
    ∃ ms, fs_collect q t docs = .ok ms ∧ ∀ m ∈ ms, t ≤ m.similarity := by
  induction docs with
  | nil => exact ⟨[], rfl, by simp⟩
  | cons d rest ih =>
    obtain ⟨ms, hms, hthr⟩ :=
      ih (fun x hx e he => hdim x (List.mem_cons_of_mem _ hx) e he)
    cases hemb : d.embedding with
    | none =>
      refine ⟨ms, ?_, hthr⟩
      simp only [fs_collect, hemb]
      exact hms
    | some e =>
      have he : e.length = q.length := hdim d (List.mem_cons_self d rest) e hemb
      obtain ⟨s, hs⟩ := fs_cosine_ok_of_dim he
      refine ⟨(if t ≤ s then [FsMatch.mk d.user_id s (1 - s)] else []) ++ ms,
        ?_, ?_⟩
      · simp only [fs_collect, hemb, hs, hms]
      · intro m hm
        rcases List.mem_append.mp hm with hm | hm
        · by_cases hts : t ≤ s
          · rw [if_pos hts] at hm
            rcases List.mem_singleton.mp hm with rfl
            exact hts
          · rw [if_neg hts] at hm
            cases hm
        · exact hthr m hm

/-- C2: for every set of backing-store rows, query, top_k and threshold, each
of the three search_similar implementations (Chroma, FAISS, Firestore)
returns a list sorted in descending order of similarity in which every entry
is at or above the threshold and whose length is at most top_k. For Chroma
and FAISS the backing query engine returns at most top_k rows (its
documented contract, taken as a hypothesis); Firestore scans all documents
and truncates to top_k itself, and (for same-dimension stored embeddings)
returns normally. -/
theorem search_similar_sorted_thresholded_bounded
    (rows_c : List (ℕ × ℝ)) (rows_f : List (ℝ × Int)) (uidx : List (ℕ × Int))
    (docs : List FsDoc) (q : List ℝ) (top_k : ℕ) (threshold : ℝ)
    (hc : rows_c.length ≤ top_k) (hf : rows_f.length ≤ top_k)
    (hdim : ∀ d ∈ docs, ∀ e, d.embedding = some e → e.length = q.length) :
    SearchResultOk ChromaMatch.similarity threshold top_k
        (chroma_search_similar rows_c threshold)
    ∧ SearchResultOk FaissMatch.similarity threshold top_k
        (faiss_search_similar rows_f uidx threshold)
    ∧ ∃ ms, firestore_search_similar docs q top_k threshold = .ok ms
        ∧ SearchResultOk FsMatch.similarity threshold top_k ms := by
  unfold chroma_search_similar faiss_search_similar SearchResultOk
  refine ⟨⟨sortBySimDesc_pairwise _ _, ?_, ?_⟩,
    ⟨sortBySimDesc_pairwise _ _, ?_, ?_⟩, ?_⟩
  · intro m hm
    have hm' := mem_sortBySimDesc.mp hm
    have := (List.mem_filter.mp hm').2
    exact of_decide_eq_true this
  · rw [length_sortBySimDesc]
    calc ((rows_c.map (fun r => ChromaMatch.mk r.1 (1 - r.2) r.2)).filter
          (fun m => decide (threshold ≤ m.similarity))).length
        ≤ (rows_c.map (fun r => ChromaMatch.mk r.1 (1 - r.2) r.2)).length :=
          List.length_filter_le _ _
      _ = rows_c.length := List.length_map _ _
      _ ≤ top_k := hc
  · intro m hm
    have hm' := mem_sortBySimDesc.mp hm
    obtain ⟨p, _, hp⟩ := List.mem_filterMap.mp hm'
    by_cases hcond : threshold ≤ p.1 ∧ p.2 ≠ -1
    · rw [if_pos hcond] at hp
      cases hq : List.find? (fun r => decide (r.2 = p.2)) uidx with
      | none => rw [hq] at hp; cases hp
      | some r =>
        rw [hq] at hp
        cases hp
        exact hcond.1
    · rw [if_neg hcond] at hp
      cases hp
  · rw [length_sortBySimDesc]
    calc (rows_f.filterMap _).length ≤ rows_f.length := List.length_filterMap_le _ _
      _ ≤ top_k := hf
  · obtain ⟨ms, hms, hthr⟩ := fs_collect_ok hdim
    refine ⟨(sortBySimDesc FsMatch.similarity ms).take top_k, ?_, ?_, ?_, ?_⟩
    · unfold firestore_search_similar
      rw [hms]
    · exact (sortBySimDesc_pairwise _ _).sublist (List.take_sublist _ _)
    · intro m hm
      exact hthr m (mem_sortBySimDesc.mp (List.mem_of_mem_take hm))
    · rw [List.length_take]
      exact min_le_left _ _

/-- C2 witness: the statement evaluated at empty stores, an empty query,
top_k = 0 and threshold 0.6. -/
theorem search_similar_sorted_thresholded_bounded_witness :
    SearchResultOk ChromaMatch.similarity (6 / 10) 0
        (chroma_search_similar [] (6 / 10))
    ∧ SearchResultOk FaissMatch.similarity (6 / 10) 0
        (faiss_search_similar [] [] (6 / 10))
    ∧ ∃ ms, firestore_search_similar [] [] 0 (6 / 10) = .ok ms
        ∧ SearchResultOk FsMatch.similarity (6 / 10) 0 ms :=
  search_similar_sorted_thresholded_bounded [] [] [] [] [] 0 (6 / 10)
    (Nat.le_refl 0) (Nat.le_refl 0) (by simp)

/-! ### C3, C7, C9: the recognition route -/

theorem consider_match_face_number {enrolled : List StudentRec}
    {claimed : List ℕ} {face : FaceDet} (st : ℝ × Option BestMatch)
    (m : MatchRec)
    (h : ∀ b, st.2 = some b → b.face_number = face.face_number) :
    ∀ b, (consider_match enrolled claimed face st m).2 = some b →
      b.face_number = face.face_number := by
  intro b hb
  unfold consider_match at hb
  split at hb
  · split at hb
    · split at hb
      · cases hb
        rfl
      · exact h b hb
    · exact h b hb
  · exact h b hb

theorem best_match_face_number (enrolled : List StudentRec) (claimed : List ℕ)
    (face : FaceDet) (ms : List MatchRec) :
    ∀ b, (best_match_for_face enrolled claimed face ms).2 = some b →
      b.face_number = face.face_number := by
  unfold best_match_for_face
  suffices h : ∀ (st : ℝ × Option BestMatch),
      (∀ b, st.2 = some b → b.face_number = face.face_number) →
      ∀ b, (ms.foldl (consider_match enrolled claimed face) st).2 = some b →
        b.face_number = face.face_number by
    exact h (0, none) (fun b hb => by cases hb)
  induction ms with
  | nil => exact fun st h => h
  | cons m rest ih =>
    intro st h
    exact ih _ (consider_match_face_number st m h)

theorem recognition_loop_ids_nodup (enrolled : List StudentRec)
    (search : ℝ → ℕ → List ℝ → List MatchRec) :
    ∀ (faces : List FaceDet) (recognized : List BestMatch) (claimed : List ℕ),
    claimed = recognized.map BestMatch.student_id → claimed.Nodup →
    ((recognition_loop enrolled search faces recognized claimed).1.map
      BestMatch.student_id).Nodup := by
  intro faces
  induction faces with
  | nil =>
    intro recognized claimed hcl hnd
    simpa [recognition_loop, ← hcl] using hnd
  | cons face rest ih =>
    intro recognized claimed hcl hnd
    simp only [recognition_loop]
    split
    case h_2 => exact ih recognized claimed hcl hnd
    case h_1 b hbm =>
      by_cases hmem : b.student_id ∈ claimed
      · rw [if_pos hmem]
        exact ih recognized claimed hcl hnd
      · rw [if_neg hmem]
        refine ih (recognized ++ [b]) (claimed ++ [b.student_id]) ?_ ?_
        · rw [List.map_append, hcl]
          rfl
        · rw [List.nodup_append]
          refine ⟨hnd, List.nodup_singleton _, ?_⟩
          intro a ha hb
          rw [List.mem_singleton.mp hb] at ha
          exact hmem ha

theorem recognition_loop_face_numbers (enrolled : List StudentRec)
    (search : ℝ → ℕ → List ℝ → List MatchRec) :
    ∀ (faces : List FaceDet) (recognized : List BestMatch) (claimed : List ℕ),
    ∃ s : List BestMatch,
      (recognition_loop enrolled search faces recognized claimed).1 =
        recognized ++ s
      ∧ List.Sublist (s.map BestMatch.face_number)
          (faces.map FaceDet.face_number) := by
  intro faces
  induction faces with
  | nil =>
    intro recognized claimed
    exact ⟨[], by simp [recognition_loop], by simp⟩
  | cons face rest ih =>
    intro recognized claimed
    simp only [recognition_loop]
    split
    case h_2 =>
      obtain ⟨s, h1, h2⟩ := ih recognized claimed
      exact ⟨s, h1, h2.trans (List.sublist_cons_self _ _)⟩
    case h_1 b hbm =>
      by_cases hmem : b.student_id ∈ claimed
      · rw [if_pos hmem]
        obtain ⟨s, h1, h2⟩ := ih recognized claimed
        exact ⟨s, h1, h2.trans (List.sublist_cons_self _ _)⟩
      · rw [if_neg hmem]
        obtain ⟨s, h1, h2⟩ := ih (recognized ++ [b]) (claimed ++ [b.student_id])
        refine ⟨b :: s, ?_, ?_⟩
        · rw [h1]
          exact (List.append_cons _ _ _).symm
        · have hfn : b.face_number = face.face_number :=
            best_match_face_number enrolled claimed face _ b hbm
          simp only [List.map_cons, hfn]
          exact h2.cons₂ _

/-- C3: the recognized_students list returned by the recognize-from-photo
route never names the same identity twice, and (when the detector emits
distinct face numbers, as it does by construction) never attributes two
matches to the same detected face. -/
theorem recognize_dedup (t : ℝ) (faces : List FaceDet)
    (enrolled : List StudentRec) (search : ℝ → ℕ → List ℝ → List MatchRec)
    (hnum : (faces.map FaceDet.face_number).Nodup) :
    (((recognize_students_from_photo t faces enrolled
        search).recognized_students.getD []).map BestMatch.student_id).Nodup
    ∧ (((recognize_students_from_photo t faces enrolled
        search).recognized_students.getD []).map BestMatch.face_number).Nodup := by
  unfold recognize_students_from_photo
  split
  · simp
  · split
    · simp
    · split
      · simp
      · constructor
        · simpa using recognition_loop_ids_nodup enrolled search faces [] []
            rfl List.nodup_nil
        · obtain ⟨s, h1, h2⟩ :=
            recognition_loop_face_numbers enrolled search faces [] []
          rw [List.nil_append] at h1
          simpa [h1] using hnum.sublist h2

/-- C3 witness: the dedup statement evaluated at one face, an empty roster
and a trivial search function. -/
theorem recognize_dedup_witness :
    (((recognize_students_from_photo (1 / 2) [FaceDet.mk 1 [] []] []
        (fun _ _ _ => [])).recognized_students.getD []).map
        BestMatch.student_id).Nodup
    ∧ (((recognize_students_from_photo (1 / 2) [FaceDet.mk 1 [] []] []
        (fun _ _ _ => [])).recognized_students.getD []).map
        BestMatch.face_number).Nodup :=
  recognize_dedup (1 / 2) [FaceDet.mk 1 [] []] [] (fun _ _ _ => []) (by simp)

/-- C7: with a valid threshold, detected faces but an empty roster, the route
returns immediately with the detected-face count populated, no matches, and
an explicit no-roster indicator (success = false, HTTP 400, a dedicated error
message) that is distinguishable from any non-empty-roster completion, which
has success = true. -/
theorem recognize_empty_roster_indicator (t : ℝ) (faces : List FaceDet)
    (enrolled : List StudentRec) (search : ℝ → ℕ → List ℝ → List MatchRec)
    (ht : 0.4 ≤ t ∧ t ≤ 0.9) (hf : faces ≠ []) :
    (recognize_students_from_photo t faces [] search).total_faces_detected =
        some faces.length
    ∧ (recognize_students_from_photo t faces [] search).recognized_students.getD
        [] = []
    ∧ (recognize_students_from_photo t faces [] search).success = false
    ∧ (recognize_students_from_photo t faces [] search).error =
        some "No students in this class have registered facial data"
    ∧ (recognize_students_from_photo t faces [] search).status = 400
    ∧ (enrolled ≠ [] →
        (recognize_students_from_photo t faces enrolled search).success = true) := by
  have hflen : ¬ faces.length = 0 := fun h => hf (List.length_eq_zero.mp h)
  have hval : ¬ ¬ (0.4 ≤ t ∧ t ≤ 0.9) := not_not.mpr ht
  have hr : recognize_students_from_photo t faces [] search =
      { status := 400, success := false,
        error := some "No students in this class have registered facial data",
        total_faces_detected := some faces.length } := by
    unfold recognize_students_from_photo
    rw [if_neg hval, if_neg hflen,
      if_pos (show ([] : List StudentRec).length = 0 from rfl)]
  refine ⟨by rw [hr], by rw [hr]; rfl, by rw [hr], by rw [hr], by rw [hr], ?_⟩
  intro he
  have helen : ¬ enrolled.length = 0 := fun h => he (List.length_eq_zero.mp h)
  unfold recognize_students_from_photo
  rw [if_neg hval, if_neg hflen, if_neg helen]

/-- C7 witness: the empty-roster statement evaluated at threshold 0.6, one
detected face and a one-student comparison roster. -/
theorem recognize_empty_roster_indicator_witness :
    (recognize_students_from_photo (6 / 10) [FaceDet.mk 1 [] []] []
        (fun _ _ _ => [])).total_faces_detected = some 1
    ∧ (recognize_students_from_photo (6 / 10) [FaceDet.mk 1 [] []] []
        (fun _ _ _ => [])).recognized_students.getD [] = []
    ∧ (recognize_students_from_photo (6 / 10) [FaceDet.mk 1 [] []] []
        (fun _ _ _ => [])).success = false
    ∧ (recognize_students_from_photo (6 / 10) [FaceDet.mk 1 [] []] []
        (fun _ _ _ => [])).error =
        some "No students in this class have registered facial data"
    ∧ (recognize_students_from_photo (6 / 10) [FaceDet.mk 1 [] []] []
        (fun _ _ _ => [])).status = 400
    ∧ ([StudentRec.mk 7 "a" "b" "c"] ≠ [] →
        (recognize_students_from_photo (6 / 10) [FaceDet.mk 1 [] []]
          [StudentRec.mk 7 "a" "b" "c"] (fun _ _ _ => [])).success = true) :=
  recognize_empty_roster_indicator (6 / 10) [FaceDet.mk 1 [] []]
    [StudentRec.mk 7 "a" "b" "c"] (fun _ _ _ => [])
    (by constructor <;> norm_num) (by simp)

/-- C9: for any two accepted caller-supplied thresholds in [0.4, 0.9], the
recognized_students output of the route is identical on the same faces,
roster and vector DB: matching always uses the fixed internal threshold
(0.35 + 1) / 2, and the caller's threshold is only echoed back. -/
theorem recognize_threshold_noninterference (t1 t2 : ℝ) (faces : List FaceDet)
    (enrolled : List StudentRec) (search : ℝ → ℕ → List ℝ → List MatchRec)
    (h1 : 0.4 ≤ t1 ∧ t1 ≤ 0.9) (h2 : 0.4 ≤ t2 ∧ t2 ≤ 0.9) :
    (recognize_students_from_photo t1 faces enrolled search).recognized_students
      = (recognize_students_from_photo t2 faces enrolled
          search).recognized_students := by
  unfold recognize_students_from_photo
  rw [if_neg (not_not.mpr h1), if_neg (not_not.mpr h2)]
  split
  · rfl
  · split
    · rfl
    · rfl

/-- C9 witness: the noninterference statement evaluated at the extreme
accepted thresholds 0.4 and 0.9. -/
theorem recognize_threshold_noninterference_witness :
    (recognize_students_from_photo (4 / 10) [] [] (fun _ _ _ =>
        [])).recognized_students
      = (recognize_students_from_photo (9 / 10) [] [] (fun _ _ _ =>
          [])).recognized_students :=
  recognize_threshold_noninterference (4 / 10) (9 / 10) [] [] (fun _ _ _ => [])
    (by constructor <;> norm_num) (by constructor <;> norm_num)

/-- C8: while the loaded ArcFace core reports that it produces
512-dimensional embeddings, VectorDBService.get_stats reports the hardcoded
encoding_dimension 128 for every backing store and every state, so the
index's stats do not reflect the dimension the core is currently
producing. -/
theorem get_stats_reports_stale_dimension (db_type : String)
    (chroma_count faiss_count : ℕ) :
    (get_model_info true).embedding_dimension = 512
    ∧ (VectorDBService_get_stats db_type chroma_count
        faiss_count).encoding_dimension = 128
    ∧ (VectorDBService_get_stats db_type chroma_count
        faiss_count).encoding_dimension ≠
      (get_model_info true).embedding_dimension := by
  refine ⟨rfl, rfl, ?_⟩
  simp [VectorDBService_get_stats, get_model_info]

end

end Attendly
